import Mathlib

/-!
Shallow embedding of the pull-request review decision engine
(`src/handlers/pull-reviewer.ts`, class `PullReviewer`).

External collaborators (the GitHub REST/GraphQL client, the completion
client, the repository-analysis fetchers) are modelled by a read-only
`Env` record supplying their responses, and the side-effecting calls the
code issues are recorded in an explicit effect trace.  Stateful async
methods become functions returning `RunM α`: a pair of an
`Except Err α` result (a thrown error or a returned value) and the
ordered list of external calls issued.  TypeScript numbers that carry
review confidences are embedded as `ℚ`; timestamps as epoch
milliseconds (`Int`, mirroring `Date.getTime()`).
-/

/-- A thrown JS error: either a plain `new Error(...)` or an error built
by `logger.error(...)` (the code uses both, and the distinction is part
of the spec). -/
inductive Err where
  | plainError (msg : String)
  | loggerError (msg : String)
deriving DecidableEq, Repr

/-- One external side-effecting call issued by the reviewer, in order. -/
inductive Effect where
  | timelineFetch
  | graphqlClosingRefs
  | draftConvert
  | fetchIssueCall (n : Nat)
  | groundTruthCall
  | completionCall (groundTruths : List String)
  | createReview (event : String) (body : String)
deriving DecidableEq, Repr

/-- Result-with-trace of one async method: the `Except` is the returned
value or the thrown error, the list is the ordered trace of external
calls made before returning/throwing. -/
abbrev RunM (α : Type) : Type := Except Err α × List Effect

/-- Return a value, no external calls. -/
def retM {α : Type} (a : α) : RunM α := (Except.ok a, [])

/-- Throw an error, no external calls. -/
def failM {α : Type} (e : Err) : RunM α := (Except.error e, [])

/-- Record one external call, then continue with `k`. -/
def emitM {α : Type} (e : Effect) (k : RunM α) : RunM α := (k.1, e :: k.2)

/-- Sequencing: propagate a thrown error, keeping the trace so far. -/
def bindM {α β : Type} (x : RunM α) (f : α → RunM β) : RunM β :=
  match x.1 with
  | Except.error e => (Except.error e, x.2)
  | Except.ok a => ((f a).1, x.2 ++ (f a).2)

/-- An issue/PR timeline event as returned by
`octokit.rest.issues.listEvents` (fields `event`, `actor.type`,
`created_at` as epoch milliseconds). -/
structure TimelineEvent where
  event : String
  actorType : String
  created_at : Int
deriving DecidableEq, Repr

/-- A node of the closing-issues GraphQL response
(`closingIssuesReferences.edges[].node`). -/
structure IssueNode where
  number : Nat
  title : String
  url : String
  body : String
  name : String
  owner : String
deriving DecidableEq, Repr

/-- The `ClosingIssueRef` shape `checkIfPrClosesIssues` maps each edge
node to. -/
structure ClosingIssue where
  number : Nat
  title : String
  url : String
  body : String
  repoName : String
  repoOwner : String
deriving DecidableEq, Repr

/-- Return shape of `checkIfPrClosesIssues`. -/
structure ClosesResult where
  closesIssues : Bool
  issues : List ClosingIssue
deriving DecidableEq, Repr

/-- The pull-request snapshot from the webhook payload (the fields the
reviewer reads). -/
structure PullRequest where
  number : Nat
  node_id : String
  draft : Bool
  state : String
  body : Option String
deriving DecidableEq, Repr

/-- An issue as returned by the `fetchIssue` collaborator. -/
structure Issue where
  number : Nat
  body : Option String
deriving DecidableEq, Repr

/-- Completion-client result (`createCompletion`): the model answer text
(usage metadata is not read by the reviewer's logic). -/
structure Completion where
  answer : String
deriving DecidableEq, Repr

/-- The `CallbackResult` returned to the dispatch layer. -/
structure CallbackResult where
  status : Nat
  reason : String
deriving DecidableEq, Repr

/-- Read-only snapshot of every external collaborator's behaviour for
one invocation: timeline contents, clock, GraphQL closing-references
response (or its failure), whether the draft-conversion mutation and the
review-creation call succeed, the issue store, repository language and
dependency signals, the spec-derived ground truths produced by
`findGroundTruths`, and the completion result. -/
structure Env where
  timeline : List TimelineEvent
  now : Int
  closingRefs : Except String (List IssueNode)
  draftConvertOk : Bool
  createReviewOk : Bool
  fetchIssueResult : Nat → Option Issue
  languages : List (String × Nat)
  dependencies : Option (List (String × String))
  devDependencies : Option (List (String × String))
  specGroundTruths : List String
  completionResult : Completion

/-- `this._oneDay = 24 * 60 * 60 * 1000` (milliseconds). -/
def oneDay : Int := 24 * 60 * 60 * 1000

/-- `canPerformReview()`: fetch the timeline, filter to `"reviewed"`
events by a `"Bot"` actor; permit when none; otherwise compare the age
of the last one against 24 hours, throwing the one-review-per-day error
when under threshold. -/
def canPerformReview (env : Env) : RunM Bool :=
  emitM Effect.timelineFetch
    (let reviews := env.timeline.filter (fun e => e.event == "reviewed")
     let botReviews := reviews.filter (fun e => e.actorType == "Bot")
     match botReviews.getLast? with
     | none => retM true
     | some lastReview =>
       if env.now - lastReview.created_at < oneDay then
         failM (Err.loggerError "Only one review per day is allowed")
       else retM true)

/-- `convertPullToDraft(nodeId, octokit)`: issue the draft-conversion
GraphQL mutation; rethrow its failure as a logger error. -/
def convertPullToDraft (env : Env) : RunM Unit :=
  emitM Effect.draftConvert
    (if env.draftConvertOk then retM ()
     else failM (Err.loggerError "Failed to convert pull request to draft mode: "))

/-- `submitCodeReview(review, status)`: call `pulls.createReview`;
rethrow its failure as a logger error. -/
def submitCodeReview (env : Env) (review : String) (status : String) : RunM Unit :=
  emitM (Effect.createReview status review)
    (if env.createReviewOk then retM ()
     else failM (Err.loggerError "Failed to submit code review"))

/-- Edge-node-to-`ClosingIssueRef` mapping done inside
`checkIfPrClosesIssues`. -/
def mapEdge (n : IssueNode) : ClosingIssue :=
  { number := n.number, title := n.title, url := n.url, body := n.body,
    repoName := n.name, repoOwner := n.owner }

/-- `checkIfPrClosesIssues(octokit, {owner, repo, pr_number})`: throw a
plain `Error` on a falsy `pr_number` before any network call; run the
closing-references query; on query failure return
`{closesIssues: false, issues: []}` instead of propagating. -/
def checkIfPrClosesIssues (env : Env) (pr_number : Nat) : RunM ClosesResult :=
  if pr_number == 0 then
    failM (Err.plainError "[checkIfPrClosesIssues]: pr_number is required")
  else
    emitM Effect.graphqlClosingRefs
      (match env.closingRefs with
       | Except.error _ => retM { closesIssues := false, issues := [] }
       | Except.ok edges =>
         let closingIssues := edges.map mapEdge
         if closingIssues.length > 0 then
           retM { closesIssues := true, issues := closingIssues }
         else
           retM { closesIssues := false, issues := [] })

/-- Numeric value of a digit string (JS `Number("007") = 7`). -/
def natOfDigits (ds : List Char) : Nat :=
  ds.foldl (fun acc c => acc * 10 + (c.toNat - 48)) 0

/-- First match of the regex `#(\d+)` in a character list, as the code's
`body.match(/#(\d+)/g)` followed by `Number(match[0].replace("#", ""))`:
the first `#` followed by at least one digit, taking the maximal digit
run. -/
def firstHashMatch : List Char → Option Nat
  | [] => none
  | c :: rest =>
    if c == '#' then
      let ds := rest.takeWhile Char.isDigit
      if ds.isEmpty then firstHashMatch rest
      else some (natOfDigits ds)
    else firstHashMatch rest

/-- `getTaskNumberFromPullRequest(context)`: closing-references first;
on zero references fall back to the first `#<digits>` token of the PR
body, converting to draft and throwing when there is none; throw on more
than one reference; finally throw `"Task number not found"` when the
resolved number is falsy. -/
def getTaskNumberFromPullRequest (env : Env) (pr : PullRequest) : RunM Nat :=
  bindM (checkIfPrClosesIssues env pr.number) (fun res =>
    let closingIssues := res.issues
    bindM
      (if closingIssues.length == 0 then
         match firstHashMatch (pr.body.getD "").toList with
         | some n => retM (some n)
         | none =>
           bindM (convertPullToDraft env) (fun _ =>
             failM (Err.loggerError
               "You need to link an issue and after that convert the PR to ready for review"))
       else if closingIssues.length > 1 then
         failM (Err.loggerError
           "Multiple tasks linked to this PR, needs investigated to see how best to handle it.")
       else
         match closingIssues with
         | i :: _ => retM (some i.number)
         | [] => retM none)
      (fun issueNumber =>
        match issueNumber with
        | some n => if n == 0 then failM (Err.loggerError "Task number not found") else retM n
        | none => failM (Err.loggerError "Task number not found")))

/-- `_collectGroundTruths(languages, dependencies, devDependencies)`:
push up to three missing-signal facts, in this fixed order. -/
def collectGroundTruths (languages : List (String × Nat))
    (dependencies devDependencies : Option (List (String × String))) : List String :=
  (if languages.length == 0 then ["No languages found in the repository"] else []) ++
  (match dependencies with
   | some d => if d.length == 0 then ["No dependencies found in the repository"] else []
   | none => []) ++
  (match devDependencies with
   | some d => if d.length == 0 then ["No devDependencies found in the repository"] else []
   | none => [])

/-- `reviewPull()`: resolve the task number, fetch the linked issue
(fatal when missing), collect repository-signal ground truths; when
exactly 3 facts were collected call the completion client with them,
otherwise derive ground truths from the task specification
(`findGroundTruths`) and call the completion client with those. -/
def reviewPull (env : Env) (pr : PullRequest) : RunM Completion :=
  bindM (getTaskNumberFromPullRequest env pr) (fun taskNumber =>
    emitM (Effect.fetchIssueCall taskNumber)
      (match env.fetchIssueResult taskNumber with
       | none => failM (Err.loggerError "Error fetching issue, Aborting")
       | some _issue =>
         let groundTruths := collectGroundTruths env.languages env.dependencies env.devDependencies
         if groundTruths.length == 3 then
           emitM (Effect.completionCall groundTruths) (retM env.completionResult)
         else
           emitM Effect.groundTruthCall
             (emitM (Effect.completionCall env.specGroundTruths) (retM env.completionResult))))

/-- A value of the loosely parsed model output at one of its two
destructured properties: a JS number, a JS string, or any other JS value
(`typeof` neither `"number"` nor `"string"`). -/
inductive LooseVal where
  | num (q : ℚ)
  | str (s : String)
  | other
deriving DecidableEq, Repr

/-- The loosely parsed structure after destructuring
`{ confidenceThreshold, reviewComment }`; `none` models an absent
property (`undefined`). -/
structure ParsedReview where
  confidenceThreshold : Option LooseVal
  reviewComment : Option LooseVal
deriving DecidableEq, Repr

/-- Drop leading JSON whitespace. -/
def skipWs (cs : List Char) : List Char :=
  cs.dropWhile (fun c => c == ' ' || c == '\n' || c == '\t' || c == '\r')

/-- Read a quoted string: the characters up to the closing quote `q`
(which has already been consumed on the left). -/
def readQuoted (q : Char) (cs : List Char) : Option (String × List Char) :=
  let s := cs.takeWhile (fun c => c != q)
  match cs.dropWhile (fun c => c != q) with
  | _ :: r => some (String.mk s, r)
  | [] => none

/-- Read a nonnegative decimal literal as an exact rational. -/
def readNumber (cs : List Char) : Option (ℚ × List Char) :=
  let ds := cs.takeWhile Char.isDigit
  if ds.isEmpty then none
  else
    match cs.drop ds.length with
    | '.' :: r =>
      let fs := r.takeWhile Char.isDigit
      if fs.isEmpty then none
      else some ((natOfDigits ds : ℚ) + (natOfDigits fs : ℚ) / ((10 : ℚ) ^ fs.length),
                 r.drop fs.length)
    | rest => some ((natOfDigits ds : ℚ), rest)

/-- Read an object key: a double- or single-quoted string or a bare
identifier (unquoted keys are one of the loose deviations). -/
def readKey (cs : List Char) : Option (String × List Char) :=
  match cs with
  | [] => none
  | c :: rest =>
    if c == '"' || c == '\'' then readQuoted c rest
    else
      let id := cs.takeWhile (fun c => c.isAlphanum || c == '_' || c == '$')
      if id.isEmpty then none else some (String.mk id, cs.drop id.length)

/-- Read a member value: a quoted string (double or single quotes) or a
number; anything else is a parse failure in this model. -/
def readValue (cs : List Char) : Option (LooseVal × List Char) :=
  match cs with
  | [] => none
  | c :: rest =>
    if c == '"' || c == '\'' then
      match readQuoted c rest with
      | some (s, r) => some (LooseVal.str s, r)
      | none => none
    else
      match readNumber cs with
      | some (q, r) => some (LooseVal.num q, r)
      | none => none

/-- Record a parsed member into the two destructured properties,
ignoring any other key. -/
def setField (acc : ParsedReview) (key : String) (v : LooseVal) : ParsedReview :=
  if key == "confidenceThreshold" then { acc with confidenceThreshold := some v }
  else if key == "reviewComment" then { acc with reviewComment := some v }
  else acc

/-- Parse the members of a flat object, fuelled by the remaining input
length. -/
def readMembers : Nat → List Char → ParsedReview → Option ParsedReview
  | 0, _, _ => none
  | fuel + 1, cs, acc =>
    match readKey (skipWs cs) with
    | none => none
    | some (key, r1) =>
      match skipWs r1 with
      | ':' :: r2 =>
        (match readValue (skipWs r2) with
         | none => none
         | some (v, r3) =>
           let acc := setField acc key v
           match skipWs r3 with
           | ',' :: r4 => readMembers fuel r4 acc
           | '}' :: _ => some acc
           | _ => none)
      | _ => none

/-- Modelled from the spec: `parseLooseJson` (the Loose JSON Parser of
`src/helpers/loose-json-parsing`, whose source is not in the
repository snapshot).  Per the spec it tolerantly parses JSON-like model
output — unquoted keys, single-quoted strings — into a structured value,
and fails with a catchable parse error otherwise.  Modelled here on flat
objects whose values are numbers or quoted strings, which covers the
verdict shape the reviewer consumes. -/
def parseLooseJson (input : String) : Except String ParsedReview :=
  match skipWs input.toList with
  | '{' :: r =>
    (match skipWs r with
     | '}' :: _ => Except.ok { confidenceThreshold := none, reviewComment := none }
     | cs =>
       match readMembers (cs.length + 1) cs { confidenceThreshold := none, reviewComment := none } with
       | some acc => Except.ok acc
       | none => Except.error "loose parse failure")
  | _ => Except.error "loose parse failure"

/-- The parsed verdict `{ confidenceThreshold, reviewComment }`. -/
structure Verdict where
  confidenceThreshold : ℚ
  reviewComment : String
deriving DecidableEq, Repr

/-- Validation body of `parsePullReviewData` (the `try` block after
`parseLooseJson` succeeds): `confidenceThreshold` must be a number or a
numeric string (`toNum` embeds JS `Number(·)` on strings, `none`
standing for `NaN`), `reviewComment` must be a string; the verdict keeps
`Number(rawThreshold)` and the comment. -/
def validateReviewData (toNum : String → Option ℚ) (p : ParsedReview) : Except Err Verdict :=
  match p.confidenceThreshold with
  | some (LooseVal.num q) =>
    (match p.reviewComment with
     | some (LooseVal.str c) => Except.ok { confidenceThreshold := q, reviewComment := c }
     | _ => Except.error (Err.loggerError "Invalid or missing reviewComment"))
  | some (LooseVal.str s) =>
    (match toNum s with
     | some q =>
       (match p.reviewComment with
        | some (LooseVal.str c) => Except.ok { confidenceThreshold := q, reviewComment := c }
        | _ => Except.error (Err.loggerError "Invalid or missing reviewComment"))
     | none => Except.error (Err.loggerError "Invalid or missing confidenceThreshold"))
  | _ => Except.error (Err.loggerError "Invalid or missing confidenceThreshold")

/-- `parsePullReviewData(input)`: loose-parse, validate; the enclosing
`try/catch` re-throws any failure (parse or validation) as the logger
error `"Couldn't parse JSON output; Aborting"`. -/
def parsePullReviewData (toNum : String → Option ℚ) (input : String) : Except Err Verdict :=
  match parseLooseJson input with
  | Except.error _ => Except.error (Err.loggerError "Couldn't parse JSON output; Aborting")
  | Except.ok parsedInput =>
    match validateReviewData toNum parsedInput with
    | Except.error _ => Except.error (Err.loggerError "Couldn't parse JSON output; Aborting")
    | Except.ok v => Except.ok v

/-- The decision step of `_handleCodeReview` after the verdict is
parsed: convert to draft when `confidenceThreshold < 0.5`, then submit
the review with event `"COMMENT"` when `confidenceThreshold > 0.5` and
`"REQUEST_CHANGES"` otherwise. -/
def reviewDecision (env : Env) (v : Verdict) : RunM CallbackResult :=
  bindM (if v.confidenceThreshold < 1 / 2 then convertPullToDraft env else retM ())
    (fun _ =>
      bindM (submitCodeReview env v.reviewComment
              (if v.confidenceThreshold > 1 / 2 then "COMMENT" else "REQUEST_CHANGES"))
        (fun _ => retM { status := 200, reason := "Success" }))

/-- `_handleCodeReview()`: run `reviewPull`, parse its answer, then the
draft-conversion/review-submission decision. -/
def handleCodeReview (toNum : String → Option ℚ) (env : Env) (pr : PullRequest) :
    RunM CallbackResult :=
  bindM (reviewPull env pr) (fun pullReviewData =>
    match parsePullReviewData toNum pullReviewData.answer with
    | Except.error e => failM e
    | Except.ok verdict => reviewDecision env verdict)

/-- `performPullPrecheck()`: 200-skip on a draft PR, 200-skip on a
closed PR, 200-skip when `canPerformReview()` returns `false`, otherwise
run the code review. -/
def performPullPrecheck (toNum : String → Option ℚ) (env : Env) (pr : PullRequest) :
    RunM CallbackResult :=
  if pr.draft then
    retM { status := 200, reason := "PR is in draft mode, no action required" }
  else if pr.state == "closed" then
    retM { status := 200, reason := "PR is closed, no action required" }
  else
    bindM (canPerformReview env) (fun can =>
      if !can then retM { status := 200, reason := "Cannot perform review at this time" }
      else handleCodeReview toNum env pr)

/-! ## Helper lemmas -/

/-- Filtered bot reviews of the timeline, as `canPerformReview` computes
them. -/
def lastBotReview (env : Env) : Option TimelineEvent :=
  ((env.timeline.filter (fun e => e.event == "reviewed")).filter
    (fun e => e.actorType == "Bot")).getLast?

theorem bindM_ok {α β : Type} (x : RunM α) (f : α → RunM β) (b : β)
    (h : (bindM x f).1 = Except.ok b) : ∃ a, x.1 = Except.ok a ∧ (f a).1 = Except.ok b := by
  cases hx : x.1 with
  | error e => unfold bindM at h; rw [hx] at h; exact absurd h (by simp)
  | ok a => unfold bindM at h; rw [hx] at h; exact ⟨a, rfl, h⟩

theorem canPerformReview_eq (env : Env) :
    canPerformReview env =
      (match lastBotReview env with
       | none => (Except.ok true, [Effect.timelineFetch])
       | some lastReview =>
         if env.now - lastReview.created_at < oneDay then
           (Except.error (Err.loggerError "Only one review per day is allowed"),
            [Effect.timelineFetch])
         else (Except.ok true, [Effect.timelineFetch])) := by
  rcases hlb : lastBotReview env with _ | e <;>
    simp only [lastBotReview] at hlb <;>
    simp only [canPerformReview, emitM, retM, failM, hlb]
  by_cases h : env.now - e.created_at < oneDay <;> simp [h]

theorem canPerformReview_fst (env : Env) :
    (canPerformReview env).1 = Except.ok true ∨
    (canPerformReview env).1 =
      Except.error (Err.loggerError "Only one review per day is allowed") := by
  rw [canPerformReview_eq]
  rcases lastBotReview env with _ | e
  · left; rfl
  · by_cases h : env.now - e.created_at < oneDay
    · right; simp [h]
    · left; simp [h]

theorem reviewDecision_ok (env : Env) (v : Verdict) (r : CallbackResult)
    (h : (reviewDecision env v).1 = Except.ok r) : r = { status := 200, reason := "Success" } := by
  unfold reviewDecision at h
  obtain ⟨a, _, h2⟩ := bindM_ok _ _ _ h
  obtain ⟨a2, _, h4⟩ := bindM_ok _ _ _ h2
  unfold retM at h4
  exact (Except.ok.injEq _ _).mp h4.symm

theorem handleCodeReview_ok (toNum : String → Option ℚ) (env : Env) (pr : PullRequest)
    (r : CallbackResult) (h : (handleCodeReview toNum env pr).1 = Except.ok r) :
    r = { status := 200, reason := "Success" } := by
  unfold handleCodeReview at h
  obtain ⟨a, _, h2⟩ := bindM_ok _ _ _ h
  cases hp : parsePullReviewData toNum a.answer with
  | error e => rw [hp] at h2; exact absurd h2 (by simp [failM])
  | ok v => rw [hp] at h2; exact reviewDecision_ok env v r h2

/-! ## Concrete instances used by witnesses and counterexamples -/

/-- An environment with an empty timeline and empty repository signals. -/
def envNoBot : Env :=
  { timeline := [], now := 0, closingRefs := Except.ok [], draftConvertOk := true,
    createReviewOk := true, fetchIssueResult := fun _ => none, languages := [],
    dependencies := none, devDependencies := none, specGroundTruths := [],
    completionResult := { answer := "" } }

/-- A timeline whose last bot-authored `"reviewed"` event is 1000 ms old. -/
def envThrottled : Env :=
  { envNoBot with
    timeline := [{ event := "reviewed", actorType := "Bot", created_at := 0 }], now := 1000 }

/-- A timeline whose last bot-authored `"reviewed"` event is exactly 24h old. -/
def envStale : Env :=
  { envNoBot with
    timeline := [{ event := "reviewed", actorType := "Bot", created_at := 0 }], now := oneDay }

/-- An environment whose closing-references GraphQL query fails. -/
def envGraphqlFail : Env := { envNoBot with closingRefs := Except.error "boom" }

/-- A draft pull request. -/
def prDraft : PullRequest :=
  { number := 3, node_id := "n", draft := true, state := "open", body := none }

/-- A closed pull request. -/
def prClosed : PullRequest :=
  { number := 3, node_id := "n", draft := false, state := "closed", body := none }

/-- An open, non-draft pull request. -/
def prOpen : PullRequest :=
  { number := 3, node_id := "n", draft := false, state := "open", body := some "#1" }

/-! ## Claim theorems -/

/-- C4: `canPerformReview` filters the fetched timeline to `"reviewed"`
events with actor type `"Bot"` (the double filter is `lastBotReview`);
with no such event it returns `true`; when the last such event is less
than 24 hours old it throws the fatal one-review-per-day error; when it
is 24 hours old or older it returns `true`. -/
theorem canPerformReview_throttle_spec (env : Env) :
    (lastBotReview env = none →
      canPerformReview env = (Except.ok true, [Effect.timelineFetch])) ∧
    (∀ e, lastBotReview env = some e → env.now - e.created_at < oneDay →
      canPerformReview env =
        (Except.error (Err.loggerError "Only one review per day is allowed"),
         [Effect.timelineFetch])) ∧
    (∀ e, lastBotReview env = some e → oneDay ≤ env.now - e.created_at →
      canPerformReview env = (Except.ok true, [Effect.timelineFetch])) := by
  refine ⟨fun h => ?_, fun e h hlt => ?_, fun e h hge => ?_⟩ <;>
    rw [canPerformReview_eq, h]
  · simp [hlt]
  · have : ¬ env.now - e.created_at < oneDay := by omega
    simp [this]

/-- Witness for C4: evaluates the three branches on concrete timelines. -/
theorem canPerformReview_throttle_spec_witness :
    canPerformReview envNoBot = (Except.ok true, [Effect.timelineFetch]) ∧
    canPerformReview envThrottled =
      (Except.error (Err.loggerError "Only one review per day is allowed"),
       [Effect.timelineFetch]) ∧
    canPerformReview envStale = (Except.ok true, [Effect.timelineFetch]) :=
  ⟨(canPerformReview_throttle_spec envNoBot).1 rfl,
   (canPerformReview_throttle_spec envThrottled).2.1
     { event := "reviewed", actorType := "Bot", created_at := 0 } rfl (by decide),
   (canPerformReview_throttle_spec envStale).2.2
     { event := "reviewed", actorType := "Bot", created_at := 0 } rfl (by decide)⟩

/-- C10: `canPerformReview` never returns `false` — it returns `true` or
throws — so the `!(await this.canPerformReview())` branch of
`performPullPrecheck` is unreachable: the precheck never returns the
`"Cannot perform review at this time"` skip, and a throttle denial can
only surface as a thrown error. -/
theorem canPerformReview_never_false (toNum : String → Option ℚ) (env : Env)
    (pr : PullRequest) :
    (canPerformReview env).1 ≠ Except.ok false ∧
    (performPullPrecheck toNum env pr).1 ≠
      Except.ok { status := 200, reason := "Cannot perform review at this time" } := by
  constructor
  · rcases canPerformReview_fst env with h | h <;> rw [h] <;> simp
  · intro hok
    by_cases hd : pr.draft
    · rw [performPullPrecheck] at hok
      simp [hd, retM] at hok
    · by_cases hs : pr.state == "closed"
      · rw [performPullPrecheck] at hok
        simp [hd, hs, retM] at hok
      · rw [performPullPrecheck] at hok
        rw [if_neg (by simp [hd]), if_neg (by simp [hs])] at hok
        obtain ⟨a, ha, hk⟩ := bindM_ok _ _ _ hok
        rcases canPerformReview_fst env with h | h
        · rw [ha] at h
          have haT : a = true := Except.ok.inj h
          subst haT
          rw [if_neg (by simp)] at hk
          have := handleCodeReview_ok toNum env pr _ hk
          simp at this
        · rw [h] at ha
          exact Except.noConfusion ha

/-- Witness for C10 at a concrete environment and pull request. -/
theorem canPerformReview_never_false_witness :
    (canPerformReview envThrottled).1 ≠ Except.ok false ∧
    (performPullPrecheck (fun _ => none) envThrottled prOpen).1 ≠
      Except.ok { status := 200, reason := "Cannot perform review at this time" } :=
  canPerformReview_never_false (fun _ => none) envThrottled prOpen

/-- C9: a draft pull request, and a closed pull request, short-circuit
`performPullPrecheck` with status 200 and the draft-mode (resp. closed)
reason, with an empty effect trace: no timeline fetch, no draft
conversion, no review submission, no completion call. -/
theorem performPullPrecheck_skip_spec (toNum : String → Option ℚ) (env : Env)
    (pr : PullRequest) :
    (pr.draft = true →
      performPullPrecheck toNum env pr =
        (Except.ok { status := 200, reason := "PR is in draft mode, no action required" }, [])) ∧
    (pr.draft = false → pr.state = "closed" →
      performPullPrecheck toNum env pr =
        (Except.ok { status := 200, reason := "PR is closed, no action required" }, [])) := by
  constructor
  · intro h
    simp [performPullPrecheck, h, retM]
  · intro h1 h2
    simp [performPullPrecheck, h1, h2, retM]

/-- Witness for C9: concrete draft and closed pull requests. -/
theorem performPullPrecheck_skip_spec_witness :
    performPullPrecheck (fun _ => none) envNoBot prDraft =
      (Except.ok { status := 200, reason := "PR is in draft mode, no action required" }, []) ∧
    performPullPrecheck (fun _ => none) envNoBot prClosed =
      (Except.ok { status := 200, reason := "PR is closed, no action required" }, []) :=
  ⟨(performPullPrecheck_skip_spec (fun _ => none) envNoBot prDraft).1 rfl,
   (performPullPrecheck_skip_spec (fun _ => none) envNoBot prClosed).2 rfl rfl⟩

/-- C7: `checkIfPrClosesIssues` with `pr_number = 0` throws a plain
`Error` with an empty effect trace (before any network call); with a
nonzero number and a failing closing-references query it absorbs the
failure and returns `{closesIssues: false, issues: []}`. -/
theorem checkIfPrClosesIssues_spec (env : Env) (n : Nat) :
    (checkIfPrClosesIssues env 0 =
      (Except.error (Err.plainError "[checkIfPrClosesIssues]: pr_number is required"), [])) ∧
    (n ≠ 0 → ∀ msg, env.closingRefs = Except.error msg →
      checkIfPrClosesIssues env n =
        (Except.ok { closesIssues := false, issues := [] }, [Effect.graphqlClosingRefs])) := by
  constructor
  · rfl
  · intro hn msg hc
    simp [checkIfPrClosesIssues, hn, hc, emitM, retM]

/-- Witness for C7: `pr_number = 0`, and `pr_number = 7` with a failing
query. -/
theorem checkIfPrClosesIssues_spec_witness :
    checkIfPrClosesIssues envGraphqlFail 0 =
      (Except.error (Err.plainError "[checkIfPrClosesIssues]: pr_number is required"), []) ∧
    checkIfPrClosesIssues envGraphqlFail 7 =
      (Except.ok { closesIssues := false, issues := [] }, [Effect.graphqlClosingRefs]) :=
  ⟨(checkIfPrClosesIssues_spec envGraphqlFail 7).1,
   (checkIfPrClosesIssues_spec envGraphqlFail 7).2 (by decide) "boom" rfl⟩

/-- C1 counterexample: an open, non-draft pull request whose last
bot-authored `"reviewed"` timeline event is 1000 ms old.  The throttle
denies review, and `performPullPrecheck` ends in a thrown
one-review-per-day error — not in a `{status: 200}` success with a
reason string, as the claim states. -/
theorem performPullPrecheck_throttle_counterexample :
    performPullPrecheck (fun _ => none) envThrottled prOpen =
      (Except.error (Err.loggerError "Only one review per day is allowed"),
       [Effect.timelineFetch]) := rfl

/-- C1 (amended): for every open, non-draft pull request, when the
throttle denies review (the most recent bot-authored `"reviewed"`
timeline event is less than 24 hours old), `performPullPrecheck`
propagates the fatal one-review-per-day error thrown by
`canPerformReview` instead of returning a 200/skip response; the only
external call made is the timeline fetch. -/
theorem performPullPrecheck_throttle_throws (toNum : String → Option ℚ) (env : Env)
    (pr : PullRequest) (h1 : pr.draft = false) (h2 : ¬ pr.state = "closed")
    (e : TimelineEvent) (hlast : lastBotReview env = some e)
    (hage : env.now - e.created_at < oneDay) :
    performPullPrecheck toNum env pr =
      (Except.error (Err.loggerError "Only one review per day is allowed"),
       [Effect.timelineFetch]) := by
  have hc := (canPerformReview_throttle_spec env).2.1 e hlast hage
  rw [performPullPrecheck, if_neg (by simp [h1]), if_neg (by simp [h2])]
  simp [bindM, hc]

/-- Witness for the amended C1 at a concrete throttled state. -/
theorem performPullPrecheck_throttle_throws_witness :
    performPullPrecheck (fun _ => some 1) envThrottled prOpen =
      (Except.error (Err.loggerError "Only one review per day is allowed"),
       [Effect.timelineFetch]) :=
  performPullPrecheck_throttle_throws (fun _ => some 1) envThrottled prOpen rfl
    (by decide) { event := "reviewed", actorType := "Bot", created_at := 0 } rfl (by decide)

/-- C2 counterexample: at confidence exactly 0.5 (not under the
threshold), the decision step submits a `"REQUEST_CHANGES"` review and
performs no draft conversion — refuting both "the review event is
COMMENT when confidenceThreshold >= 0.5" and "draft conversion and
REQUEST_CHANGES always co-occur". -/
theorem reviewDecision_half_counterexample :
    (reviewDecision envNoBot { confidenceThreshold := 1 / 2, reviewComment := "needs work" }).2 =
      [Effect.createReview "REQUEST_CHANGES" "needs work"] := by
  simp [reviewDecision, submitCodeReview, convertPullToDraft, bindM, emitM, retM, failM,
    envNoBot, show ¬((1 : ℚ) / 2 < 1 / 2) by norm_num, show ¬((1 : ℚ) / 2 > 1 / 2) by norm_num]

/-- C2 (amended): for every parsed verdict, if
`confidenceThreshold < 0.5` the pull request is converted to draft
before the review is submitted and the review event is
`"REQUEST_CHANGES"`; if `confidenceThreshold > 0.5` no draft conversion
occurs and the event is `"COMMENT"`; at exactly `0.5` no draft
conversion occurs yet the event is `"REQUEST_CHANGES"` — draft
conversion always comes with `"REQUEST_CHANGES"`, but not conversely. -/
theorem reviewDecision_confidence_spec (env : Env) (v : Verdict)
    (hd : env.draftConvertOk = true) :
    (v.confidenceThreshold < 1 / 2 →
      (reviewDecision env v).2 =
        [Effect.draftConvert, Effect.createReview "REQUEST_CHANGES" v.reviewComment]) ∧
    (1 / 2 < v.confidenceThreshold →
      (reviewDecision env v).2 = [Effect.createReview "COMMENT" v.reviewComment]) ∧
    (v.confidenceThreshold = 1 / 2 →
      (reviewDecision env v).2 = [Effect.createReview "REQUEST_CHANGES" v.reviewComment]) := by
  refine ⟨fun h => ?_, fun h => ?_, fun h => ?_⟩
  · have h2 : ¬ (1 / 2 < v.confidenceThreshold) := by linarith
    rw [reviewDecision, if_pos h, if_neg h2]
    cases hcr : env.createReviewOk <;>
      simp [convertPullToDraft, submitCodeReview, bindM, emitM, retM, failM, hd, hcr]
  · have h2 : ¬ (v.confidenceThreshold < 1 / 2) := by linarith
    rw [reviewDecision, if_neg h2, if_pos h]
    cases hcr : env.createReviewOk <;>
      simp [submitCodeReview, bindM, emitM, retM, failM, hcr]
  · have h2 : ¬ (v.confidenceThreshold < 1 / 2) := by rw [h]; exact lt_irrefl _
    have h3 : ¬ (1 / 2 < v.confidenceThreshold) := by rw [h]; exact lt_irrefl _
    rw [reviewDecision, if_neg h2, if_neg h3]
    cases hcr : env.createReviewOk <;>
      simp [submitCodeReview, bindM, emitM, retM, failM, hcr]

/-- Witness for the amended C2 at confidences 0, 1 and 0.5. -/
theorem reviewDecision_confidence_spec_witness :
    (reviewDecision envNoBot { confidenceThreshold := 0, reviewComment := "r" }).2 =
      [Effect.draftConvert, Effect.createReview "REQUEST_CHANGES" "r"] ∧
    (reviewDecision envNoBot { confidenceThreshold := 1, reviewComment := "r" }).2 =
      [Effect.createReview "COMMENT" "r"] ∧
    (reviewDecision envNoBot { confidenceThreshold := 1 / 2, reviewComment := "r" }).2 =
      [Effect.createReview "REQUEST_CHANGES" "r"] :=
  ⟨(reviewDecision_confidence_spec envNoBot _ rfl).1 (by norm_num),
   (reviewDecision_confidence_spec envNoBot _ rfl).2.1 (by norm_num),
   (reviewDecision_confidence_spec envNoBot _ rfl).2.2 rfl⟩

/-- C5: `_collectGroundTruths` is a pure function; its result is, in the
fixed order, a sub-sequence of the three missing-signal facts;
each fact appears exactly when the language list is empty / the
dependency mapping is present with zero keys / the dev-dependency
mapping is present with zero keys; and the two concrete examples of the
spec evaluate as stated. -/
theorem collectGroundTruths_spec (l : List (String × Nat))
    (d dd : Option (List (String × String))) :
    List.Sublist (collectGroundTruths l d dd)
      ["No languages found in the repository", "No dependencies found in the repository",
       "No devDependencies found in the repository"] ∧
    ("No languages found in the repository" ∈ collectGroundTruths l d dd ↔ l = []) ∧
    ("No dependencies found in the repository" ∈ collectGroundTruths l d dd ↔ d = some []) ∧
    ("No devDependencies found in the repository" ∈ collectGroundTruths l d dd ↔ dd = some []) ∧
    collectGroundTruths [] (some []) (some []) =
      ["No languages found in the repository", "No dependencies found in the repository",
       "No devDependencies found in the repository"] ∧
    collectGroundTruths [("ts", 100)] (some [("a", "1")]) (some []) =
      ["No devDependencies found in the repository"] := by
  refine ⟨?_, ?_, ?_, ?_, by decide, by decide⟩ <;>
    rcases l with _ | ⟨x, l⟩ <;>
    rcases d with _ | ⟨_ | ⟨y, d⟩⟩ <;>
    rcases dd with _ | ⟨_ | ⟨z, dd⟩⟩ <;>
    simp [collectGroundTruths]

/-- A closing-reference node for issue 42. -/
def nodeA : IssueNode :=
  { number := 42, title := "t", url := "u", body := "b", name := "r", owner := "o" }

/-- A closing-reference node for issue 43. -/
def nodeB : IssueNode := { nodeA with number := 43 }

/-- An environment whose closing-references query returns one issue. -/
def envOneRef : Env := { envNoBot with closingRefs := Except.ok [nodeA] }

/-- An environment whose closing-references query returns two issues. -/
def envTwoRefs : Env := { envNoBot with closingRefs := Except.ok [nodeA, nodeB] }

/-- An open, non-draft pull request whose body has no `#<digits>` token. -/
def prNoBody : PullRequest :=
  { number := 3, node_id := "n", draft := false, state := "open", body := none }

/-- C3: `getTaskNumberFromPullRequest` resolves at most one task: one
closing reference returns that issue's number; zero references fall back
to the first `#<digits>` token of the PR body, and with no token the PR
is first converted to draft and then the fatal must-link-an-issue error
is thrown; two or more references throw the fatal multiple-tasks error,
and `reviewPull` then fails without the completion client (neither
`createCompletion` nor the ground-truth endpoint) ever being called. -/
theorem getTaskNumberFromPullRequest_spec (env : Env) (pr : PullRequest)
    (hpr : pr.number ≠ 0) (hdc : env.draftConvertOk = true) :
    (∀ i, env.closingRefs = Except.ok [i] → i.number ≠ 0 →
      getTaskNumberFromPullRequest env pr =
        (Except.ok i.number, [Effect.graphqlClosingRefs])) ∧
    (∀ n, env.closingRefs = Except.ok [] →
      firstHashMatch (pr.body.getD "").toList = some n → n ≠ 0 →
      getTaskNumberFromPullRequest env pr = (Except.ok n, [Effect.graphqlClosingRefs])) ∧
    (env.closingRefs = Except.ok [] →
      firstHashMatch (pr.body.getD "").toList = none →
      getTaskNumberFromPullRequest env pr =
        (Except.error (Err.loggerError
          "You need to link an issue and after that convert the PR to ready for review"),
         [Effect.graphqlClosingRefs, Effect.draftConvert])) ∧
    (∀ i j rest, env.closingRefs = Except.ok (i :: j :: rest) →
      reviewPull env pr =
        (Except.error (Err.loggerError
          "Multiple tasks linked to this PR, needs investigated to see how best to handle it."),
         [Effect.graphqlClosingRefs]) ∧
      (∀ g, Effect.completionCall g ∉ (reviewPull env pr).2) ∧
      Effect.groundTruthCall ∉ (reviewPull env pr).2) := by
  have hif : ¬ ((pr.number == 0) = true) := by simp [hpr]
  refine ⟨fun i hc hi0 => ?_, fun n hc hf hn0 => ?_, fun hc hf => ?_, fun i j rest hc => ?_⟩
  · have hchk : checkIfPrClosesIssues env pr.number =
        (Except.ok { closesIssues := true, issues := [mapEdge i] },
         [Effect.graphqlClosingRefs]) := by
      rw [checkIfPrClosesIssues, if_neg hif]
      simp [hc, emitM, retM]
    rw [getTaskNumberFromPullRequest]
    simp [bindM, hchk, retM, failM, mapEdge, hi0]
  · have hchk : checkIfPrClosesIssues env pr.number =
        (Except.ok { closesIssues := false, issues := [] },
         [Effect.graphqlClosingRefs]) := by
      rw [checkIfPrClosesIssues, if_neg hif]
      simp [hc, emitM, retM]
    have hf' : firstHashMatch (pr.body.getD "").data = some n := hf
    rw [getTaskNumberFromPullRequest]
    simp [bindM, hchk, retM, failM, hf', hn0]
  · have hchk : checkIfPrClosesIssues env pr.number =
        (Except.ok { closesIssues := false, issues := [] },
         [Effect.graphqlClosingRefs]) := by
      rw [checkIfPrClosesIssues, if_neg hif]
      simp [hc, emitM, retM]
    have hf' : firstHashMatch (pr.body.getD "").data = none := hf
    rw [getTaskNumberFromPullRequest]
    simp [bindM, hchk, retM, failM, hf', convertPullToDraft, emitM, hdc]
  · have hchk : checkIfPrClosesIssues env pr.number =
        (Except.ok { closesIssues := true,
                     issues := mapEdge i :: mapEdge j :: rest.map mapEdge },
         [Effect.graphqlClosingRefs]) := by
      rw [checkIfPrClosesIssues, if_neg hif]
      simp [hc, emitM, retM]
    have hgtn : getTaskNumberFromPullRequest env pr =
        (Except.error (Err.loggerError
          "Multiple tasks linked to this PR, needs investigated to see how best to handle it."),
         [Effect.graphqlClosingRefs]) := by
      rw [getTaskNumberFromPullRequest]
      simp [bindM, hchk, retM, failM]
    have hrp : reviewPull env pr =
        (Except.error (Err.loggerError
          "Multiple tasks linked to this PR, needs investigated to see how best to handle it."),
         [Effect.graphqlClosingRefs]) := by
      rw [reviewPull]
      simp [bindM, hgtn]
    refine ⟨hrp, fun g => ?_, ?_⟩ <;> rw [hrp] <;> simp

/-- Witness for C3: one reference, body fallback, missing link, and two
references, each on a concrete environment. -/
theorem getTaskNumberFromPullRequest_spec_witness :
    getTaskNumberFromPullRequest envOneRef prOpen =
      (Except.ok 42, [Effect.graphqlClosingRefs]) ∧
    getTaskNumberFromPullRequest envNoBot prOpen =
      (Except.ok 1, [Effect.graphqlClosingRefs]) ∧
    getTaskNumberFromPullRequest envNoBot prNoBody =
      (Except.error (Err.loggerError
        "You need to link an issue and after that convert the PR to ready for review"),
       [Effect.graphqlClosingRefs, Effect.draftConvert]) ∧
    reviewPull envTwoRefs prOpen =
      (Except.error (Err.loggerError
        "Multiple tasks linked to this PR, needs investigated to see how best to handle it."),
       [Effect.graphqlClosingRefs]) :=
  ⟨(getTaskNumberFromPullRequest_spec envOneRef prOpen (by decide) rfl).1 nodeA rfl
      (by decide),
   (getTaskNumberFromPullRequest_spec envNoBot prOpen (by decide) rfl).2.1 1 rfl rfl
      (by decide),
   (getTaskNumberFromPullRequest_spec envNoBot prNoBody (by decide) rfl).2.2.1 rfl rfl,
   ((getTaskNumberFromPullRequest_spec envTwoRefs prOpen (by decide) rfl).2.2.2 nodeA nodeB
      [] rfl).1⟩

theorem bindM_fst {α β : Type} (x : RunM α) (f : α → RunM β) :
    (bindM x f).1 =
      (match x.1 with
       | Except.error e => Except.error e
       | Except.ok a => (f a).1) := by
  unfold bindM
  cases x.1 <;> rfl

theorem bindM_snd {α β : Type} (x : RunM α) (f : α → RunM β) :
    (bindM x f).2 =
      x.2 ++
        (match x.1 with
         | Except.error _ => []
         | Except.ok a => (f a).2) := by
  unfold bindM
  cases x.1 <;> simp

theorem checkIfPrClosesIssues_trace (env : Env) (n : Nat) :
    ∀ x ∈ (checkIfPrClosesIssues env n).2, x = Effect.graphqlClosingRefs := by
  intro x hx
  rw [checkIfPrClosesIssues] at hx
  by_cases h0 : (n == 0) = true
  · rw [if_pos h0] at hx
    simp [failM] at hx
  · rw [if_neg h0] at hx
    rcases hc : env.closingRefs with msg | edges <;>
      rw [hc] at hx <;>
      simp [emitM, retM, apply_ite] at hx <;>
      tauto

theorem getTaskNumber_trace_sub (env : Env) (pr : PullRequest) :
    ∀ x ∈ (getTaskNumberFromPullRequest env pr).2,
      x = Effect.graphqlClosingRefs ∨ x = Effect.draftConvert := by
  intro x hx
  by_cases h0 : (pr.number == 0) = true
  · rw [getTaskNumberFromPullRequest, checkIfPrClosesIssues, if_pos h0] at hx
    simp [bindM, failM] at hx
  · have hgen : ∀ hk : checkIfPrClosesIssues env pr.number =
        (Except.ok { closesIssues := false, issues := [] }, [Effect.graphqlClosingRefs]),
        x = Effect.graphqlClosingRefs ∨ x = Effect.draftConvert := by
      intro hk
      rcases hf : firstHashMatch (pr.body.getD "").data with _ | m
      · cases hdc : env.draftConvertOk <;>
          · rw [getTaskNumberFromPullRequest] at hx
            simp [bindM, hk, retM, failM, hf, convertPullToDraft, emitM, hdc] at hx
            tauto
      · rw [getTaskNumberFromPullRequest] at hx
        simp [bindM, hk, retM, failM, hf, apply_ite] at hx
        tauto
    rcases hc : env.closingRefs with msg | edges
    · exact hgen (by rw [checkIfPrClosesIssues, if_neg h0]; simp [hc, emitM, retM])
    · rcases edges with _ | ⟨i, rest⟩
      · exact hgen (by rw [checkIfPrClosesIssues, if_neg h0]; simp [hc, emitM, retM])
      · rcases rest with _ | ⟨j, rest⟩
        · have hk : checkIfPrClosesIssues env pr.number =
              (Except.ok { closesIssues := true, issues := [mapEdge i] },
               [Effect.graphqlClosingRefs]) := by
            rw [checkIfPrClosesIssues, if_neg h0]
            simp [hc, emitM, retM]
          rw [getTaskNumberFromPullRequest] at hx
          simp [bindM, hk, retM, failM, apply_ite] at hx
          tauto
        · have hk : checkIfPrClosesIssues env pr.number =
              (Except.ok { closesIssues := true,
                           issues := mapEdge i :: mapEdge j :: rest.map mapEdge },
               [Effect.graphqlClosingRefs]) := by
            rw [checkIfPrClosesIssues, if_neg h0]
            simp [hc, emitM, retM]
          rw [getTaskNumberFromPullRequest] at hx
          simp [bindM, hk, retM, failM] at hx
          tauto

/-- Recognizer for completion-client calls in a trace. -/
def isCompletionCall : Effect → Bool
  | Effect.completionCall _ => true
  | _ => false

/-- C6: in every `reviewPull` invocation the two ground-truth
construction paths are mutually exclusive: every completion call in the
trace carries the repository-signal facts exactly when the collector
returned 3 facts, and the spec-derived ground truths otherwise; at most
one completion call ever appears, and a successful invocation makes
exactly one. -/
theorem reviewPull_groundTruth_selection (env : Env) (pr : PullRequest) :
    (∀ g, Effect.completionCall g ∈ (reviewPull env pr).2 →
      g = (if (collectGroundTruths env.languages env.dependencies env.devDependencies).length == 3
           then collectGroundTruths env.languages env.dependencies env.devDependencies
           else env.specGroundTruths)) ∧
    ((reviewPull env pr).2.countP isCompletionCall ≤ 1) ∧
    (∀ c, (reviewPull env pr).1 = Except.ok c →
      (reviewPull env pr).2.countP isCompletionCall = 1) := by
  have hno : ∀ g, Effect.completionCall g ∉ (getTaskNumberFromPullRequest env pr).2 := by
    intro g hg
    rcases getTaskNumber_trace_sub env pr _ hg with h | h <;> exact Effect.noConfusion h
  have hcount0 : ((getTaskNumberFromPullRequest env pr).2.countP isCompletionCall) = 0 :=
    List.countP_eq_zero.mpr (fun a ha => by
      rcases getTaskNumber_trace_sub env pr a ha with h | h <;> subst h <;>
        simp [isCompletionCall])
  rcases hg : (getTaskNumberFromPullRequest env pr).1 with e | a
  · have hrp1 : (reviewPull env pr).1 = Except.error e := by
      rw [reviewPull, bindM_fst, hg]
    have hrp2 : (reviewPull env pr).2 = (getTaskNumberFromPullRequest env pr).2 := by
      rw [reviewPull, bindM_snd, hg]
      simp
    refine ⟨fun g hgmem => ?_, ?_, fun c hc => ?_⟩
    · rw [hrp2] at hgmem
      exact absurd hgmem (hno g)
    · rw [hrp2]
      simp [hcount0]
    · rw [hrp1] at hc
      exact Except.noConfusion hc
  · rcases hfi : env.fetchIssueResult a with _ | issue
    · have hrp1 : (reviewPull env pr).1 =
          Except.error (Err.loggerError "Error fetching issue, Aborting") := by
        rw [reviewPull, bindM_fst, hg]
        simp [emitM, failM, hfi]
      have hrp2 : (reviewPull env pr).2 =
          (getTaskNumberFromPullRequest env pr).2 ++ [Effect.fetchIssueCall a] := by
        rw [reviewPull, bindM_snd, hg]
        simp [emitM, failM, hfi]
      refine ⟨fun g hgmem => ?_, ?_, fun c hc => ?_⟩
      · rw [hrp2] at hgmem
        rcases List.mem_append.mp hgmem with h | h
        · exact absurd h (hno g)
        · simp at h
      · rw [hrp2]
        simp [List.countP_append, hcount0, isCompletionCall, List.countP_cons]
      · rw [hrp1] at hc
        exact Except.noConfusion hc
    · by_cases hlen :
        ((collectGroundTruths env.languages env.dependencies env.devDependencies).length == 3)
          = true
      · have hrp1 : (reviewPull env pr).1 = Except.ok env.completionResult := by
          rw [reviewPull, bindM_fst, hg]
          simp [emitM, retM, hfi, hlen]
        have hrp2 : (reviewPull env pr).2 =
            (getTaskNumberFromPullRequest env pr).2 ++
              [Effect.fetchIssueCall a,
               Effect.completionCall
                 (collectGroundTruths env.languages env.dependencies env.devDependencies)] := by
          rw [reviewPull, bindM_snd, hg]
          simp [emitM, retM, hfi, hlen]
        refine ⟨fun g hgmem => ?_, ?_, fun c hc => ?_⟩
        · rw [hrp2] at hgmem
          rcases List.mem_append.mp hgmem with h | h
          · exact absurd h (hno g)
          · rw [if_pos hlen]
            simp at h
            exact h
        · rw [hrp2]
          simp [List.countP_append, hcount0, isCompletionCall, List.countP_cons]
        · rw [hrp2]
          simp [List.countP_append, hcount0, isCompletionCall, List.countP_cons]
      · have hrp1 : (reviewPull env pr).1 = Except.ok env.completionResult := by
          rw [reviewPull, bindM_fst, hg]
          simp [emitM, retM, hfi, hlen]
        have hrp2 : (reviewPull env pr).2 =
            (getTaskNumberFromPullRequest env pr).2 ++
              [Effect.fetchIssueCall a, Effect.groundTruthCall,
               Effect.completionCall env.specGroundTruths] := by
          rw [reviewPull, bindM_snd, hg]
          simp [emitM, retM, hfi, hlen]
        refine ⟨fun g hgmem => ?_, ?_, fun c hc => ?_⟩
        · rw [hrp2] at hgmem
          rcases List.mem_append.mp hgmem with h | h
          · exact absurd h (hno g)
          · rw [if_neg hlen]
            simp at h
            exact h
        · rw [hrp2]
          simp [List.countP_append, hcount0, isCompletionCall, List.countP_cons]
        · rw [hrp2]
          simp [List.countP_append, hcount0, isCompletionCall, List.countP_cons]

/-- An environment that is signal-empty on all three repository axes,
with one closing reference and a fetchable issue. -/
def envReviewable : Env :=
  { envNoBot with
    closingRefs := Except.ok [nodeA]
    fetchIssueResult := fun _ => some ({ number := 42, body := some "spec" } : Issue)
    dependencies := some []
    devDependencies := some [] }

/-- Witness for C6: a successful invocation makes exactly one completion
call. -/
theorem reviewPull_groundTruth_selection_witness :
    (reviewPull envReviewable prOpen).2.countP isCompletionCall = 1 :=
  (reviewPull_groundTruth_selection envReviewable prOpen).2.2 { answer := "" } rfl

/-- C8: `parsePullReviewData` validation — a numeric
`confidenceThreshold` (or a numeric string, via `toNum` embedding JS
`Number`) together with a string `reviewComment` yields
`{confidenceThreshold: Number(rawThreshold), reviewComment}`; a missing
or non-string comment, and a missing or non-numeric threshold, raise an
error (surfaced by the enclosing catch as the fatal parse error), never
a silent default; loose-parsing the spec's example input yields
confidence 1 and comment "passed". -/
theorem parsePullReviewData_spec (toNum : String → Option ℚ) (p : ParsedReview) :
    (∀ q c, p.confidenceThreshold = some (LooseVal.num q) →
      p.reviewComment = some (LooseVal.str c) →
      validateReviewData toNum p =
        Except.ok { confidenceThreshold := q, reviewComment := c }) ∧
    (∀ s q c, p.confidenceThreshold = some (LooseVal.str s) → toNum s = some q →
      p.reviewComment = some (LooseVal.str c) →
      validateReviewData toNum p =
        Except.ok { confidenceThreshold := q, reviewComment := c }) ∧
    ((∀ c, ¬ p.reviewComment = some (LooseVal.str c)) →
      ∃ e, validateReviewData toNum p = Except.error e) ∧
    ((p.confidenceThreshold = none ∨ p.confidenceThreshold = some LooseVal.other ∨
      (∃ s, p.confidenceThreshold = some (LooseVal.str s) ∧ toNum s = none)) →
      ∃ e, validateReviewData toNum p = Except.error e) ∧
    (∀ input, parseLooseJson input = Except.ok p →
      (∃ e, validateReviewData toNum p = Except.error e) →
      parsePullReviewData toNum input =
        Except.error (Err.loggerError "Couldn't parse JSON output; Aborting")) ∧
    parsePullReviewData toNum "\x7bconfidenceThreshold: 1, reviewComment: 'passed'\x7d" =
      Except.ok { confidenceThreshold := 1, reviewComment := "passed" } := by
  refine ⟨fun q c h1 h2 => ?_, fun s q c h1 hs h2 => ?_, fun hcom => ?_, fun hthr => ?_,
    fun input hpl he => ?_, rfl⟩
  · simp [validateReviewData, h1, h2]
  · simp [validateReviewData, h1, hs, h2]
  · rcases hct : p.confidenceThreshold with _ | v
    · exact ⟨Err.loggerError "Invalid or missing confidenceThreshold",
        by simp [validateReviewData, hct]⟩
    · rcases v with q | s | _
      · rcases hrc : p.reviewComment with _ | w
        · exact ⟨Err.loggerError "Invalid or missing reviewComment",
            by simp [validateReviewData, hct, hrc]⟩
        · rcases w with q2 | s2 | _
          · exact ⟨Err.loggerError "Invalid or missing reviewComment",
              by simp [validateReviewData, hct, hrc]⟩
          · exact absurd hrc (hcom s2)
          · exact ⟨Err.loggerError "Invalid or missing reviewComment",
              by simp [validateReviewData, hct, hrc]⟩
      · rcases hts : toNum s with _ | q
        · exact ⟨Err.loggerError "Invalid or missing confidenceThreshold",
            by simp [validateReviewData, hct, hts]⟩
        · rcases hrc : p.reviewComment with _ | w
          · exact ⟨Err.loggerError "Invalid or missing reviewComment",
              by simp [validateReviewData, hct, hts, hrc]⟩
          · rcases w with q2 | s2 | _
            · exact ⟨Err.loggerError "Invalid or missing reviewComment",
                by simp [validateReviewData, hct, hts, hrc]⟩
            · exact absurd hrc (hcom s2)
            · exact ⟨Err.loggerError "Invalid or missing reviewComment",
                by simp [validateReviewData, hct, hts, hrc]⟩
      · exact ⟨Err.loggerError "Invalid or missing confidenceThreshold",
          by simp [validateReviewData, hct]⟩
  · rcases hthr with h | h | ⟨s, hs, hn⟩
    · exact ⟨Err.loggerError "Invalid or missing confidenceThreshold",
        by simp [validateReviewData, h]⟩
    · exact ⟨Err.loggerError "Invalid or missing confidenceThreshold",
        by simp [validateReviewData, h]⟩
    · exact ⟨Err.loggerError "Invalid or missing confidenceThreshold",
        by simp [validateReviewData, hs, hn]⟩
  · obtain ⟨e, hee⟩ := he
    simp [parsePullReviewData, hpl, hee]

/-- Witness for C8: the valid shape and the spec's concrete example. -/
theorem parsePullReviewData_spec_witness :
    validateReviewData (fun _ => none)
        { confidenceThreshold := some (LooseVal.num 1),
          reviewComment := some (LooseVal.str "passed") } =
      Except.ok { confidenceThreshold := 1, reviewComment := "passed" } ∧
    parsePullReviewData (fun _ => none)
        "\x7bconfidenceThreshold: 1, reviewComment: 'passed'\x7d" =
      Except.ok { confidenceThreshold := 1, reviewComment := "passed" } :=
  ⟨(parsePullReviewData_spec (fun _ => none) _).1 1 "passed" rfl rfl,
   (parsePullReviewData_spec (fun _ => none)
      { confidenceThreshold := some (LooseVal.num 1),
        reviewComment := some (LooseVal.str "passed") }).2.2.2.2.2⟩
